import Mathlib

/-!
Shallow embedding of the cattle-nutrition core of this repository:
`nutrition_model.py` (class `NutritionPredictor`) and `cattle_advisor.py`
(class `CattleNutritionAdvisor`).  Numeric values are modelled as exact
rationals (the Python code computes with IEEE doubles); dictionaries are
modelled as association lists in insertion order, which is the iteration
order of Python dicts.
-/

namespace NM

/-- Errors raised by the Python runtime in the modelled code paths:
`KeyError` (missing dict key / missing dataframe column), `AttributeError`
(attribute access on `None`), `ValueError` (raised explicitly by the code). -/
inductive PyErr where
  | keyError (key : String)
  | attributeError (attr : String)
  | valueError (msg : String)
deriving DecidableEq

/-- A fitted `sklearn.preprocessing.StandardScaler` for one column: it holds
the frozen location (`mean_`) and scale (`scale_`) statistics.  The statistics
themselves are produced at fit time (mean and sqrt of variance over the
training sample); since the square root is not rational, the fitting map is
kept as an explicit parameter (`fitStats`) below, while `transform` and
`inverse_transform` follow sklearn's formulas exactly. -/
structure Scaler where
  mean : ℚ
  zscale : ℚ
deriving DecidableEq

/-- sklearn `StandardScaler.transform` on one value: `(x - mean_) / scale_`. -/
def Scaler.transform (sc : Scaler) (x : ℚ) : ℚ := (x - sc.mean) / sc.zscale

/-- sklearn `StandardScaler.inverse_transform` on one value:
`y * scale_ + mean_`. -/
def Scaler.inverse_transform (sc : Scaler) (y : ℚ) : ℚ := y * sc.zscale + sc.mean

/-- A fitted `RandomForestRegressor` is modelled as the prediction function it
computes on one scaled feature row.  Its training algorithm (a randomized
ensemble over floats) is outside the embedding; training is represented by the
explicit parameter `fitForest` below. -/
def RFModel : Type := List ℚ → ℚ

/-- The `self.scalers` dict of `NutritionPredictor`: key `'features'` holds
either `None` (modelled `none`) or a scaler fitted per feature column, and key
`'targets'` holds a dict from target name to its fitted scaler. -/
structure Scalers where
  features : Option (List Scaler)
  targets : List (String × Scaler)

/-- State of a `NutritionPredictor` object: `model_type`, the `self.models`
dict (target name to fitted model) and the `self.scalers` dict. -/
structure Predictor where
  model_type : String
  models : List (String × RFModel)
  scalers : Scalers

/-- `NutritionPredictor.feature_columns`. -/
def feature_columns : List String :=
  ["type", "target_weight", "Body weight (lbs)", "ADG (lbs)"]

/-- `NutritionPredictor.target_columns`: the 13 fixed nutrient targets, in the
order of the source list. -/
def target_columns : List String :=
  ["DM Intake (lbs/day)", "TDN (% DM)", "NEm (Mcal/lb)",
   "NEg (Mcal/lb)", "CP (% DM)", "Ca (%DM)", "P (% DM)",
   "TDN (lbs)", "NEm (Mcal)", "NEg (Mcal)", "CP (lbs)",
   "Ca (grams)", "P (grams)"]

/-- State built by `NutritionPredictor.__init__`: empty `models` dict and
`scalers = {'features': None, 'targets': {}}`. -/
def new_predictor : Predictor :=
  { model_type := "random_forest", models := [], scalers := { features := none, targets := [] } }

/-- Python dict assignment `d[k] = v` on an insertion-ordered association
list: replaces the value in place if the key exists, else appends. -/
def dictSet {α : Type} : List (String × α) → String → α → List (String × α)
  | [], k, v => [(k, v)]
  | (k', v') :: rest, k, v =>
    if k' = k then (k, v) :: rest else (k', v') :: dictSet rest k v

/-- A training dataframe, column-oriented: column name to column values
(`pd.read_csv` and row contents are out of scope; `train` is modelled from
the dataframe on). -/
def Dataset : Type := List (String × List ℚ)

/-- Column selection `df[cols]`: pandas raises `KeyError` if a requested
column is absent (the error is modelled as naming the first missing column). -/
def lookup_columns (df : Dataset) : List String → Except PyErr (List (List ℚ))
  | [] => .ok []
  | c :: cs =>
    match df.lookup c with
    | none => .error (.keyError c)
    | some col =>
      match lookup_columns df cs with
      | .error e => .error e
      | .ok rest => .ok (col :: rest)

/-- `NutritionPredictor._get_model`: returns a fresh regressor for
`'random_forest'`, otherwise raises `ValueError`.  The constructed (unfitted)
model carries no state, so only the error side is modelled. -/
def get_model_check (model_type : String) : Except PyErr Unit :=
  if model_type = "random_forest" then .ok ()
  else .error (.valueError ("Unknown model type: " ++ model_type))

/-- The per-target loop of `NutritionPredictor.train`: for each target,
look up its column (`KeyError` stops the loop there), store a freshly fitted
target scaler in `self.scalers['targets']`, fit a model on the scaled data
and store it in `self.models`.  Mutations made before a failing iteration
remain in the returned state, exactly as on the Python object. -/
def train_targets (fitStats : List ℚ → Scaler)
    (fitForest : List (List ℚ) → List ℚ → RFModel)
    (df : Dataset) (Xcols : List (List ℚ)) :
    Predictor → List String → Predictor × Option PyErr
  | p, [] => (p, none)
  | p, t :: ts =>
    match df.lookup t with
    | none => (p, some (.keyError t))
    | some y =>
      let sc := fitStats y
      let p1 : Predictor :=
        { p with scalers := { p.scalers with targets := dictSet p.scalers.targets t sc } }
      let y_scaled := y.map sc.transform
      match get_model_check p1.model_type with
      | .error e => (p1, some e)
      | .ok _ =>
        let m := fitForest Xcols y_scaled
        let p2 : Predictor := { p1 with models := dictSet p1.models t m }
        train_targets fitStats fitForest df Xcols p2 ts

/-- `NutritionPredictor.train` (from the loaded dataframe on): select the
feature columns (`KeyError` if any is missing, before any mutation), fit and
store the feature scaler, scale the features, then run the per-target loop.
`fitStats` abstracts `StandardScaler.fit` (mean and sqrt-of-variance of a
column) and `fitForest` abstracts `RandomForestRegressor.fit`. -/
def train (fitStats : List ℚ → Scaler)
    (fitForest : List (List ℚ) → List ℚ → RFModel)
    (p : Predictor) (df : Dataset) : Predictor × Option PyErr :=
  match lookup_columns df feature_columns with
  | .error e => (p, some e)
  | .ok Xcols =>
    let fscalers := Xcols.map fitStats
    let p1 : Predictor := { p with scalers := { p.scalers with features := some fscalers } }
    let Xscaled := (Xcols.zip fscalers).map (fun cv => cv.1.map cv.2.transform)
    train_targets fitStats fitForest df Xscaled p1 target_columns

/-- Per-column standardization of one feature row, as
`self.scalers['features'].transform(X)` does for a one-row dataframe. -/
def transform_row (fscalers : List Scaler) (xs : List ℚ) : List ℚ :=
  (xs.zip fscalers).map (fun xsc => xsc.2.transform xsc.1)

/-- The per-target loop of `NutritionPredictor.predict`: look up the target's
model (`KeyError` if absent), predict, look up the target's scaler (`KeyError`
if absent), inverse-transform, and record the value under the target's name in
insertion order. -/
def predict_targets (p : Predictor) (xs : List ℚ) :
    List String → Except PyErr (List (String × ℚ))
  | [] => .ok []
  | t :: ts =>
    match p.models.lookup t with
    | none => .error (.keyError t)
    | some m =>
      let pred_scaled := m xs
      match p.scalers.targets.lookup t with
      | none => .error (.keyError t)
      | some sc =>
        match predict_targets p xs ts with
        | .error e => .error e
        | .ok rest => .ok ((t, sc.inverse_transform pred_scaled) :: rest)

/-- `NutritionPredictor.predict`: build the feature row, standardize it with
the stored feature scaler (`self.scalers['features'].transform` — when that
entry is still `None`, Python raises
`AttributeError: 'NoneType' object has no attribute 'transform'`), then run
every target model and inverse-transform each output. -/
def predict (p : Predictor) (type_val target_weight body_weight adg : ℚ) :
    Except PyErr (List (String × ℚ)) :=
  match p.scalers.features with
  | none => .error (.attributeError "transform")
  | some fscalers =>
    let Xscaled := transform_row fscalers [type_val, target_weight, body_weight, adg]
    predict_targets p Xscaled target_columns

/-- The persisted bundle written by `save_models`: the `models` dict and the
`scalers` dict, dumped as two joblib files. -/
structure Artifact where
  models : List (String × RFModel)
  scalers : Scalers

/-- `NutritionPredictor.save_models`: dumps `self.models` and `self.scalers`
verbatim. -/
def save_models (p : Predictor) : Artifact :=
  { models := p.models, scalers := p.scalers }

/-- `NutritionPredictor.load_models`: loads the two dicts and assigns them to
`self.models` and `self.scalers`.  Given an artifact value (the joblib files
exist and deserialize — file I/O is out of scope), no other failure path
exists in the source: there is no completeness check of any kind. -/
def load_models (a : Artifact) (p : Predictor) : Except PyErr Predictor :=
  .ok { p with models := a.models, scalers := a.scalers }

/-- `CattleNutritionAdvisor.type_mapping`: breed class name to integer code,
in source insertion order. -/
def type_mapping : List (String × ℕ) :=
  [("growing_steer_heiver", 0), ("growing_yearlings", 1), ("growing_mature_bulls", 2)]

/-- `CattleNutritionAdvisor.validation_rules`: breed class name to its
`max_target_weight` cap in lbs, in source insertion order. -/
def validation_rules : List (String × ℕ) :=
  [("growing_mature_bulls", 2300), ("growing_steer_heiver", 1400), ("growing_yearlings", 1400)]

/-- `CattleNutritionAdvisor._validate_input`: unknown breed class is rejected
with a reason listing the valid class names; a target weight strictly above
the class cap is rejected with a reason naming the cap; otherwise
`(True, "")`. -/
def validate_input (cattle_type : String) (target_weight : ℚ) : Bool × String :=
  match validation_rules.lookup cattle_type with
  | none =>
    (false, "Invalid cattle type. Must be one of: "
      ++ String.intercalate ", " (validation_rules.map Prod.fst))
  | some max_weight =>
    if target_weight > (max_weight : ℚ) then
      (false, "Target weight for " ++ cattle_type ++ " should not exceed "
        ++ toString max_weight
        ++ " lbs. Please consult an expert for higher weights.")
    else
      (true, "")

/-- `CattleNutritionAdvisor.get_nutrition_prediction`: validate (raising
`ValueError` with the reason on rejection), map the breed class to its code,
and call `NutritionPredictor.predict`. -/
def get_nutrition_prediction (p : Predictor) (cattle_type : String)
    (target_weight body_weight adg : ℚ) : Except PyErr (List (String × ℚ)) :=
  let v := validate_input cattle_type target_weight
  if v.1 = false then .error (.valueError v.2)
  else
    match type_mapping.lookup cattle_type with
    | none => .error (.keyError cattle_type)
    | some type_val => predict p (type_val : ℚ) target_weight body_weight adg

/-- A numeric literal of the static ingredient table, kept as written in the
source: either a Python `int`, or a Python `float` written with `digits`
decimal digits (value `m / 10 ^ digits`).  The distinction matters only for
how Python's `str` renders the constant inside the prompt table. -/
inductive PyNum where
  | pint (n : ℤ)
  | pdec (m : ℤ) (digits : ℕ)
deriving DecidableEq

/-- Rational value of a table constant. -/
def PyNum.val : PyNum → ℚ
  | .pint n => (n : ℚ)
  | .pdec m d => (m : ℚ) / ((10 : ℚ) ^ d)

/-- Drops trailing `'0'` characters from a digit string. -/
def stripTrailZeros (s : List Char) : List Char :=
  (s.reverse.dropWhile (fun c => c = '0')).reverse

/-- Left-pads a digit string with `'0'` up to width `w`. -/
def padZerosLeft (s : String) (w : ℕ) : String :=
  String.mk (List.replicate (w - s.length) '0') ++ s

/-- Python `str` of a table constant: an `int` prints as its digits; a `float`
literal of this table prints as its shortest round-tripping decimal, i.e. with
trailing fractional zeros dropped but at least one fractional digit kept
(`str(0.50) = '0.5'`, `str(23.00) = '23.0'`, `str(0.02) = '0.02'`). -/
def PyNum.str : PyNum → String
  | .pint n => toString n
  | .pdec m d =>
    let ipart := m / (10 : ℤ) ^ d
    let fpart := (m % (10 : ℤ) ^ d).toNat
    let fdigits := stripTrailZeros (padZerosLeft (toString fpart) d).data
    toString ipart ++ "." ++ (if fdigits.isEmpty then "0" else String.mk fdigits)

/-- Nutrient values of one row of `CattleNutritionAdvisor.feed_ingredients`. -/
structure IngredientVals where
  tdn : PyNum
  nem : PyNum
  neg : PyNum
  cp : PyNum
  ca : PyNum
  p : PyNum
deriving DecidableEq

/-- `CattleNutritionAdvisor.feed_ingredients`: the static 7-entry ingredient
database, values exactly as written in the source. -/
def feed_ingredients : List (String × IngredientVals) :=
  [("Alfalfa Hay",
    { tdn := .pint 58, nem := .pdec 50 2, neg := .pdec 30 2,
      cp := .pint 17, ca := .pdec 120 2, p := .pdec 22 2 }),
   ("Corn Silage",
    { tdn := .pint 65, nem := .pdec 60 2, neg := .pdec 35 2,
      cp := .pint 8, ca := .pdec 30 2, p := .pdec 22 2 }),
   ("Soybean Meal (48%)",
    { tdn := .pint 82, nem := .pdec 70 2, neg := .pdec 40 2,
      cp := .pint 48, ca := .pdec 30 2, p := .pdec 65 2 }),
   ("Ground Corn",
    { tdn := .pint 88, nem := .pdec 90 2, neg := .pdec 65 2,
      cp := .pint 9, ca := .pdec 2 2, p := .pdec 28 2 }),
   ("Dicalcium Phosphate",
    { tdn := .pint 0, nem := .pint 0, neg := .pint 0,
      cp := .pint 0, ca := .pdec 2300 2, p := .pdec 1800 2 }),
   ("Trace Mineral Mix",
    { tdn := .pint 0, nem := .pint 0, neg := .pint 0,
      cp := .pint 0, ca := .pdec 1200 2, p := .pdec 800 2 }),
   ("Salt",
    { tdn := .pint 0, nem := .pint 0, neg := .pint 0,
      cp := .pint 0, ca := .pdec 0 2, p := .pdec 0 2 })]

/-- Rounds the fraction `num / den` (with `den > 0`) to the nearest integer,
ties to even — the rounding used by Python's fixed-point `format`.  `f` is the
floor; `r2` compares twice the remainder against the denominator. -/
def roundHalfEven (num den : ℤ) : ℤ :=
  let f := Int.fdiv num den
  let r2 := 2 * (num - f * den)
  if r2 > den then f + 1
  else if r2 < den then f
  else if f % 2 = 0 then f else f + 1

/-- Python `format(x, '.Nf')` on a nonnegative value: round `x * 10 ^ prec`
(given exactly by `x.num * 10 ^ prec / x.den`) to the nearest integer, ties to
even, and print with exactly `prec` fractional digits (none, and no decimal
point, when `prec = 0`). -/
def fmtFixedNN (prec : ℕ) (q : ℚ) : String :=
  let n := (roundHalfEven (q.num * (10 : ℤ) ^ prec) (q.den : ℤ)).toNat
  if prec = 0 then toString n
  else toString (n / 10 ^ prec) ++ "." ++ padZerosLeft (toString (n % 10 ^ prec)) prec

/-- Python `format(x, '.Nf')`: sign, then the nonnegative rendering.  The
source formats IEEE doubles; on the exact rationals of this embedding the
rendering agrees except on values whose binary approximation falls on the
other side of a rounding boundary. -/
def fmtFixed (prec : ℕ) (q : ℚ) : String :=
  if q < 0 then "-" ++ fmtFixedNN prec (-q) else fmtFixedNN prec q

/-- `predictions.get(key, 0)` on the prediction record. -/
def pget (preds : List (String × ℚ)) (key : String) : ℚ :=
  (preds.lookup key).getD 0

/-- `f'{s:<w}'`: left-justify in a field of width `w`. -/
def padRight (s : String) (w : ℕ) : String :=
  s ++ String.mk (List.replicate (w - s.length) ' ')

/-- Python truthiness of the `unavailable_ingredients` argument
(default `None`): `None` and the empty list are falsy. -/
def truthy (excl : Option (List String)) : Bool :=
  match excl with
  | none => false
  | some l => !l.isEmpty

/-- `dict.pop(name, None)` on the copied ingredient dict: removes the entry
with that key if present, otherwise does nothing. -/
def dict_pop (d : List (String × IngredientVals)) (name : String) :
    List (String × IngredientVals) :=
  d.filter (fun kv => !(kv.1 = name))

/-- The exclusion loop of `generate_feed_recommendation`: pop each listed
name from a copy of the ingredient dict. -/
def pop_all (names : List String) (d : List (String × IngredientVals)) :
    List (String × IngredientVals) :=
  names.foldl dict_pop d

/-- The ingredient dict used for the prompt table: a copy of
`feed_ingredients` with the unavailable ingredients popped (the pop loop runs
only when the argument is truthy). -/
def available_ingredients (excl : Option (List String)) :
    List (String × IngredientVals) :=
  if truthy excl then pop_all (excl.getD []) feed_ingredients else feed_ingredients

/-- First line of the nutrient list in the prompt (`:.1f` for DMI). -/
def dmi_line (preds : List (String × ℚ)) : String :=
  "- Dry Matter Intake (DMI): " ++ fmtFixed 1 (pget preds "DM Intake (lbs/day)") ++ " lbs"

/-- TDN line of the prompt (`:.1f` for the percent and `:.1f` for the lbs). -/
def tdn_line (preds : List (String × ℚ)) : String :=
  "- Total Digestible Nutrients (TDN): " ++ fmtFixed 1 (pget preds "TDN (% DM)")
    ++ "% of DM (" ++ fmtFixed 1 (pget preds "TDN (lbs)") ++ " lbs)"

/-- NEm line of the prompt (`:.2f` for the rate and `:.1f` for the Mcal). -/
def nem_line (preds : List (String × ℚ)) : String :=
  "- Net Energy for Maintenance (NEm): " ++ fmtFixed 2 (pget preds "NEm (Mcal/lb)")
    ++ " Mcal/lb (" ++ fmtFixed 1 (pget preds "NEm (Mcal)") ++ " Mcal)"

/-- NEg line of the prompt (`:.2f` for the rate and `:.1f` for the Mcal). -/
def neg_line (preds : List (String × ℚ)) : String :=
  "- Net Energy for Gain (NEg): " ++ fmtFixed 2 (pget preds "NEg (Mcal/lb)")
    ++ " Mcal/lb (" ++ fmtFixed 1 (pget preds "NEg (Mcal)") ++ " Mcal)"

/-- CP line of the prompt (`:.1f` for the percent and `:.2f` for the lbs). -/
def cp_line (preds : List (String × ℚ)) : String :=
  "- Crude Protein (CP): " ++ fmtFixed 1 (pget preds "CP (% DM)")
    ++ "% of DM (" ++ fmtFixed 2 (pget preds "CP (lbs)") ++ " lbs)"

/-- Ca line of the prompt (`:.2f` for the percent and `:.0f` for the grams). -/
def ca_line (preds : List (String × ℚ)) : String :=
  "- Calcium (Ca): " ++ fmtFixed 2 (pget preds "Ca (%DM)")
    ++ "% of DM (" ++ fmtFixed 0 (pget preds "Ca (grams)") ++ " g)"

/-- Phosphorus line of the prompt (`:.2f` for the percent and `:.0f` for the
grams). -/
def phos_line (preds : List (String × ℚ)) : String :=
  "- Phosphorus (P): " ++ fmtFixed 2 (pget preds "P (% DM)")
    ++ "% of DM (" ++ fmtFixed 0 (pget preds "P (grams)") ++ " g)"

/-- The opening of the prompt built by `generate_feed_recommendation`, down to
the ingredient table header (the f-string literal, with the seven formatted
nutrient lines spliced in). -/
def req_block (preds : List (String × ℚ)) : String :=
  "You are an expert cattle nutritionist.\n\nA cow needs the following nutrients per day:\n"
  ++ dmi_line preds ++ "\n"
  ++ tdn_line preds ++ "\n"
  ++ nem_line preds ++ "\n"
  ++ neg_line preds ++ "\n"
  ++ cp_line preds ++ "\n"
  ++ ca_line preds ++ "\n"
  ++ phos_line preds
  ++ "\n\nHere is a list of available feed ingredients and their nutrient values per pound of dry matter:\n\n"
  ++ "| Feed Ingredient        | TDN (%) | NEm (Mcal/lb) | NEg (Mcal/lb) | CP (%) | Ca (%) | P (%) |\n"
  ++ "|------------------------|---------|----------------|----------------|--------|--------|--------|"

/-- One row of the ingredient table
(`f"\n| {name:<20} | {values['TDN']:<7} | ... |"`). -/
def row_line (kv : String × IngredientVals) : String :=
  "\n| " ++ padRight kv.1 20
  ++ " | " ++ padRight kv.2.tdn.str 7
  ++ " | " ++ padRight kv.2.nem.str 12
  ++ " | " ++ padRight kv.2.neg.str 12
  ++ " | " ++ padRight kv.2.cp.str 6
  ++ " | " ++ padRight kv.2.ca.str 6
  ++ " | " ++ padRight kv.2.p.str 6
  ++ " |"

/-- The `prompt += row` loop over the available ingredients. -/
def ingredient_rows (ings : List (String × IngredientVals)) : String :=
  ings.foldl (fun acc kv => acc ++ row_line kv) ""

/-- The fixed task section appended after the ingredient table. -/
def task_block : String :=
  "\n\n**Your Task:**\n- Design a realistic daily feed menu of 5 to 7 ingredients from the available ingredients.\n- Show quantity of each ingredient in pounds of dry matter.\n- Calculate and show the contribution of each to total TDN, NEm, NEg, CP, Ca, and P.\n- Ensure the totals are as close as possible to the cow\x27s requirements above.\n- Keep the ingredients reasonable and commonly used."

/-- The unavailability note: appended only when the exclusion argument is
truthy, and joining the names in the order of the given list. -/
def note_block (excl : Option (List String)) : String :=
  if truthy excl then
    "\n\nNote: The following ingredients are not available: "
      ++ String.intercalate ", " (excl.getD [])
      ++ ". Please adjust the feed menu accordingly."
  else ""

/-- The closing section of the prompt: the answer-table schema with the
formatted totals row, and the fixed closing instructions. -/
def return_block (preds : List (String × ℚ)) : String :=
  "\n\nReturn a table like this:\n\n| Ingredient            | Amount (lbs DM) | TDN (lbs) | NEm (Mcal) | NEg (Mcal) | CP (lbs) | Ca (g) | P (g) |\n|-----------------------|------------------|------------|-------------|-------------|----------|--------|--------|\n| Feed 1                |                  |            |             |             |          |        |        |\n| ...                   |                  |            |             |             |          |        |        |\n| **Total**             | "
  ++ fmtFixed 1 (pget preds "DM Intake (lbs/day)")
  ++ " | " ++ fmtFixed 1 (pget preds "TDN (lbs)")
  ++ " | " ++ fmtFixed 1 (pget preds "NEm (Mcal)")
  ++ " | " ++ fmtFixed 1 (pget preds "NEg (Mcal)")
  ++ " | " ++ fmtFixed 2 (pget preds "CP (lbs)")
  ++ " | " ++ fmtFixed 0 (pget preds "Ca (grams)")
  ++ " | " ++ fmtFixed 0 (pget preds "P (grams)")
  ++ " |\n\nAfter your table, list any assumptions or notes you made.\n\nStart your response with: \"Here is the feed menu that meets the cow\x27s nutrient needs.\"\n"

/-- The full prompt assembled by `generate_feed_recommendation` from the
prediction record and the optional unavailable-ingredient list.  The method
then sends this text to the external text-completion service; that call is an
out-of-scope collaborator, so the assembly is the modelled boundary. -/
def generate_feed_recommendation_prompt (preds : List (String × ℚ))
    (excl : Option (List String)) : String :=
  req_block preds
  ++ ingredient_rows (available_ingredients excl)
  ++ task_block
  ++ note_block excl
  ++ return_block preds

/-- Tests whether `pat` is a leading segment of `s` (character lists). -/
def listIsPref : List Char → List Char → Bool
  | [], _ => true
  | _ :: _, [] => false
  | c :: pat, d :: s => c = d && listIsPref pat s

/-- Naive substring search on character lists. -/
def listHasSub : List Char → List Char → Bool
  | s, pat =>
    if listIsPref pat s then true
    else
      match s with
      | [] => false
      | _ :: rest => listHasSub rest pat

/-- Substring test on strings, via their character lists. -/
def strHasSub (s pat : String) : Bool := listHasSub s.data pat.data

theorem listIsPref_refl (p : List Char) : listIsPref p p = true := by
  induction p with
  | nil => rfl
  | cons c cs ih => simp [listIsPref, ih]

theorem listIsPref_append (p s t : List Char) (h : listIsPref p s = true) :
    listIsPref p (s ++ t) = true := by
  induction p generalizing s with
  | nil => rfl
  | cons c cs ih =>
    cases s with
    | nil => simp [listIsPref] at h
    | cons d ds =>
      simp only [listIsPref, Bool.and_eq_true] at h
      simp only [List.cons_append, listIsPref, Bool.and_eq_true]
      exact ⟨h.1, ih ds h.2⟩

theorem listHasSub_refl (p : List Char) : listHasSub p p = true := by
  cases p with
  | nil => rfl
  | cons c cs => simp [listHasSub, listIsPref_refl]

theorem listHasSub_nil_pat (s : List Char) : listHasSub s [] = true := by
  cases s <;> simp [listHasSub, listIsPref]

theorem listHasSub_append_left (s t p : List Char) (h : listHasSub s p = true) :
    listHasSub (s ++ t) p = true := by
  induction s with
  | nil =>
    cases p with
    | nil => exact listHasSub_nil_pat t
    | cons c cs => simp [listHasSub, listIsPref] at h
  | cons d ds ih =>
    simp only [listHasSub] at h
    simp only [List.cons_append, listHasSub]
    by_cases hp : listIsPref p (d :: ds) = true
    · have hp2 : listIsPref p (d :: (ds ++ t)) = true := listIsPref_append p (d :: ds) t hp
      rw [if_pos hp2]
    · rw [if_neg hp] at h
      split
      · rfl
      · exact ih h

theorem listHasSub_append_right (s t p : List Char) (h : listHasSub t p = true) :
    listHasSub (s ++ t) p = true := by
  induction s with
  | nil => exact h
  | cons d ds ih =>
    simp only [List.cons_append, listHasSub]
    split
    · rfl
    · exact ih

/-- A pattern occurs in any string that has it as a concatenation factor on
the right of a prefix. -/
theorem strHasSub_append_pat (a p : String) : strHasSub (a ++ p) p = true := by
  unfold strHasSub
  rw [String.data_append]
  exact listHasSub_append_right a.data p.data p.data (listHasSub_refl p.data)

/-- Substring occurrence is preserved by appending on the right. -/
theorem strHasSub_append_r (s t p : String) (h : strHasSub s p = true) :
    strHasSub (s ++ t) p = true := by
  unfold strHasSub at h ⊢
  rw [String.data_append]
  exact listHasSub_append_left s.data t.data p.data h

/-- Substring occurrence is preserved by appending on the left. -/
theorem strHasSub_append_l (s t p : String) (h : strHasSub t p = true) :
    strHasSub (s ++ t) p = true := by
  unfold strHasSub at h ⊢
  rw [String.data_append]
  exact listHasSub_append_right s.data t.data p.data h

/-- Readiness of a predictor: the feature scaler is present and every one of
the 13 targets has a stored model and target scaler — the state after a
successful `train` or a `load` of a complete artifact. -/
def ModelsReady (p : Predictor) : Prop :=
  p.scalers.features.isSome = true ∧
    ∀ t ∈ target_columns,
      (p.models.lookup t).isSome = true ∧ (p.scalers.targets.lookup t).isSome = true

instance (p : Predictor) : Decidable (ModelsReady p) :=
  inferInstanceAs (Decidable (_ ∧ ∀ t ∈ target_columns,
    (p.models.lookup t).isSome = true ∧ (p.scalers.targets.lookup t).isSome = true))

theorem predict_targets_ok (p : Predictor) (xs : List ℚ) (ts : List String)
    (h : ∀ t ∈ ts, (p.models.lookup t).isSome = true ∧ (p.scalers.targets.lookup t).isSome = true) :
    ∃ l, predict_targets p xs ts = .ok l ∧ l.map Prod.fst = ts := by
  induction ts with
  | nil => exact ⟨[], rfl, rfl⟩
  | cons t ts ih =>
    obtain ⟨hm, hs⟩ := h t (List.mem_cons_self t ts)
    obtain ⟨m, hm2⟩ := Option.isSome_iff_exists.mp hm
    obtain ⟨sc, hs2⟩ := Option.isSome_iff_exists.mp hs
    obtain ⟨l, hl, hfst⟩ := ih (fun u hu => h u (List.mem_cons_of_mem t hu))
    refine ⟨(t, sc.inverse_transform (m xs)) :: l, ?_, ?_⟩
    · simp only [predict_targets, hm2, hs2, hl]
    · simp [hfst]

theorem type_mapping_of_valid (ct : String)
    (h : (validation_rules.lookup ct).isSome = true) :
    (type_mapping.lookup ct).isSome = true := by
  by_cases h1 : ct = "growing_mature_bulls"
  · subst h1; decide
  by_cases h2 : ct = "growing_steer_heiver"
  · subst h2; decide
  by_cases h3 : ct = "growing_yearlings"
  · subst h3; decide
  exfalso
  have e1 : (ct == "growing_mature_bulls") = false := beq_eq_false_iff_ne.mpr h1
  have e2 : (ct == "growing_steer_heiver") = false := beq_eq_false_iff_ne.mpr h2
  have e3 : (ct == "growing_yearlings") = false := beq_eq_false_iff_ne.mpr h3
  simp [validation_rules, List.lookup, e1, e2, e3] at h

/-- Claim C1: for every breed class in the validation table, `validate_input`
accepts exactly the target weights at most the class cap; any weight strictly
above the cap is rejected with a reason containing the numeric cap; any class
name outside the table is rejected with a reason listing every valid class
name. -/
theorem c1_validate_spec (name : String) (w : ℚ) :
    (∀ cap : ℕ, validation_rules.lookup name = some cap →
      (((validate_input name w).1 = true) ↔ w ≤ (cap : ℚ)) ∧
      (w > (cap : ℚ) → (validate_input name w).1 = false ∧
        strHasSub (validate_input name w).2 (toString cap) = true)) ∧
    (validation_rules.lookup name = none →
      (validate_input name w).1 = false ∧
      ∀ k ∈ validation_rules.map Prod.fst,
        strHasSub (validate_input name w).2 k = true) := by
  constructor
  · intro cap hcap
    unfold validate_input
    rw [hcap]
    dsimp only
    constructor
    · by_cases hw : w > (cap : ℚ)
      · rw [if_pos hw]
        constructor
        · intro h; exact absurd h (by simp)
        · intro h; exact absurd h (not_le.mpr hw)
      · rw [if_neg hw]
        exact ⟨fun _ => not_lt.mp hw, fun _ => rfl⟩
    · intro hw
      rw [if_pos hw]
      refine ⟨rfl, ?_⟩
      exact strHasSub_append_r _ _ _ (strHasSub_append_pat _ _)
  · intro hnone
    unfold validate_input
    rw [hnone]
    dsimp only
    refine ⟨rfl, ?_⟩
    intro k hk
    simp only [validation_rules, List.map, List.mem_cons, List.not_mem_nil, or_false] at hk
    rcases hk with rfl | rfl | rfl <;> decide

/-- Witness for C1 at concrete inputs: "growing_yearlings" with weight 2000
is rejected with a reason containing "1400", and with weight 1000 it is
accepted. -/
theorem c1_witness :
    ((validate_input "growing_yearlings" 2000).1 = false ∧
      strHasSub (validate_input "growing_yearlings" 2000).2 "1400" = true) ∧
    (validate_input "growing_yearlings" 1000).1 = true := by
  refine ⟨?_, ?_⟩
  · exact ((c1_validate_spec "growing_yearlings" 2000).1 1400 (by decide)).2 (by norm_num)
  · exact ((c1_validate_spec "growing_yearlings" 1000).1 1400 (by decide)).1.mpr (by norm_num)

/-- Claim C2: for any predictor with a complete model set, and any input that
passed validation, the prediction pipeline returns a record whose keys are
exactly the 13 target names in the fixed order of the target list. -/
theorem c2_predict_keys (p : Predictor) (ct : String) (tw bw adg : ℚ)
    (hready : ModelsReady p) (hval : (validate_input ct tw).1 = true) :
    ∃ l, get_nutrition_prediction p ct tw bw adg = .ok l ∧
      l.map Prod.fst = target_columns ∧ l.length = 13 := by
  cases hL : validation_rules.lookup ct with
  | none =>
    exfalso
    unfold validate_input at hval
    rw [hL] at hval
    exact Bool.false_ne_true hval
  | some cap =>
    have hsome : (type_mapping.lookup ct).isSome = true :=
      type_mapping_of_valid ct (by rw [hL]; rfl)
    obtain ⟨tv, htv⟩ := Option.isSome_iff_exists.mp hsome
    obtain ⟨fs, hfs⟩ := Option.isSome_iff_exists.mp hready.1
    obtain ⟨l, hl, hfst⟩ := predict_targets_ok p
      (transform_row fs [(tv : ℚ), tw, bw, adg]) target_columns hready.2
    refine ⟨l, ?_, hfst, ?_⟩
    · unfold get_nutrition_prediction
      simp only [hval, Bool.true_eq_false, if_false, htv]
      unfold predict
      rw [hfs]
      exact hl
    · have hlen := congrArg List.length hfst
      simpa using hlen

/-- Constant scaler used for concrete witness states. -/
def demoScaler : Scaler := { mean := 0, zscale := 1 }

/-- Constant regression model used for concrete witness states. -/
def demoModel : RFModel := fun _ => 0

/-- A fully loaded predictor used for concrete witness states. -/
def demoPredictor : Predictor :=
  { model_type := "random_forest",
    models := target_columns.map (fun t => (t, demoModel)),
    scalers := { features := some [demoScaler, demoScaler, demoScaler, demoScaler],
                 targets := target_columns.map (fun t => (t, demoScaler)) } }

/-- Witness for C2 at a concrete loaded predictor and a concrete validated
input. -/
theorem c2_witness :
    ∃ l, get_nutrition_prediction demoPredictor "growing_yearlings" 1000 600 (5 / 2) = .ok l ∧
      l.map Prod.fst = target_columns ∧ l.length = 13 :=
  c2_predict_keys demoPredictor "growing_yearlings" 1000 600 (5 / 2) (by decide) (by decide)

/-- Message text of each modelled Python error, as CPython prints it. -/
def py_error_message : PyErr → String
  | .keyError k => "\x27" ++ k ++ "\x27"
  | .attributeError attr => "\x27NoneType\x27 object has no attribute \x27" ++ attr ++ "\x27"
  | .valueError msg => msg

/-- Modelled from the spec: a descriptive "uninitialized model" error is one
whose message mentions uninitialized state. -/
def specIsUninitializedError (e : PyErr) : Bool :=
  strHasSub (py_error_message e) "uninitialized"

/-- Counterexample for C3: calling `predict` on a freshly constructed
predictor (no `train`, no `load`) raises the generic
`AttributeError: 'NoneType' object has no attribute 'transform'` from the
`None` feature scaler — an arbitrary crash, not a descriptive
uninitialized-model error. -/
theorem c3_counterexample :
    predict new_predictor 1 1000 600 (5 / 2) = .error (.attributeError "transform") ∧
    specIsUninitializedError (.attributeError "transform") = false := by
  exact ⟨rfl, by decide⟩

/-- Claim C3 as amended: `predict` called before `train` or `load` always
fails, but with the generic attribute error raised by calling `.transform` on
the still-`None` feature scaler, not with a descriptive uninitialized-model
error. -/
theorem c3_amended (type_val target_weight body_weight adg : ℚ) :
    predict new_predictor type_val target_weight body_weight adg =
      .error (.attributeError "transform") := rfl

/-- An artifact whose two dicts are empty: every one of the 13 targets is
missing its model and scaler, and the feature scaler is missing too. -/
def empty_artifact : Artifact :=
  { models := [], scalers := { features := none, targets := [] } }

/-- Counterexample for C4: an artifact missing the model and scaler of every
one of the 13 targets loads without any error, leaving the predictor with the
partial (here empty) model set. -/
theorem c4_counterexample :
    (target_columns.all (fun t =>
      (empty_artifact.models.lookup t).isNone
        && (empty_artifact.scalers.targets.lookup t).isNone)) = true ∧
    load_models empty_artifact new_predictor =
      .ok { model_type := "random_forest", models := [],
            scalers := { features := none, targets := [] } } := by
  exact ⟨by decide, rfl⟩

/-- Claim C4 as amended: `load_models` performs no completeness validation at
all — for every artifact (complete or not) it declares success and installs
exactly the artifact's model and scaler dicts; a partial load completes
silently, and missing targets only surface later, when `predict` fails. -/
theorem c4_amended (a : Artifact) (p : Predictor) :
    load_models a p =
      .ok { model_type := p.model_type, models := a.models, scalers := a.scalers } ∧
    ∀ p2, load_models empty_artifact p = .ok p2 →
      ∀ tv tw bw adg : ℚ, predict p2 tv tw bw adg =
        .error (.attributeError "transform") := by
  refine ⟨rfl, ?_⟩
  intro p2 h tv tw bw adg
  cases h
  rfl

/-- Witness for C4's amended claim at a concrete incomplete artifact: the
load succeeds and the subsequent predict fails with the attribute error. -/
theorem c4_witness :
    predict { model_type := "random_forest", models := [],
              scalers := { features := none, targets := [] } } 1 2 3 4 =
      .error (.attributeError "transform") :=
  (c4_amended empty_artifact new_predictor).2
    { model_type := "random_forest", models := [],
      scalers := { features := none, targets := [] } } rfl 1 2 3 4

theorem pop_all_eq_filter (names : List String) (d : List (String × IngredientVals)) :
    pop_all names d = d.filter (fun kv => !(names.contains kv.1)) := by
  induction names generalizing d with
  | nil =>
    show d = d.filter (fun kv => !(List.contains [] kv.1))
    simp [List.contains]
  | cons n ns ih =>
    show pop_all ns (dict_pop d n) = _
    rw [ih (dict_pop d n)]
    unfold dict_pop
    rw [List.filter_filter]
    apply List.filter_congr
    intro kv _
    cases hkv : kv.1 == n <;> simp_all [List.contains]

theorem contains_eq_of_perm (e1 e2 : List String) (h : e1.Perm e2) (x : String) :
    e1.contains x = e2.contains x := by
  have h1 : (e1.contains x = true) ↔ (e2.contains x = true) := by
    simp only [List.contains, List.elem_iff]
    exact h.mem_iff
  cases hc : e2.contains x with
  | true => exact h1.mpr hc
  | false =>
    cases hc1 : e1.contains x with
    | true => rw [h1.mp hc1] at hc; exact absurd hc (by simp)
    | false => rfl

theorem available_eq_filter (excl : List String) :
    available_ingredients (some excl) =
      feed_ingredients.filter (fun kv => !(excl.contains kv.1)) := by
  cases excl with
  | nil => decide
  | cons n ns =>
    show pop_all (n :: ns) feed_ingredients = _
    exact pop_all_eq_filter (n :: ns) feed_ingredients

/-- Claim C6: for any exclusion list, the ingredient table assembled by
`generate_feed_recommendation` keeps exactly the database rows whose names are
not in the exclusion list, with unchanged values (it is the membership filter
of the static table); unknown exclusion names are ignored; and excluding
"Salt" and "Trace Mineral Mix" leaves exactly 5 of the 7 reference
ingredients. -/
theorem c6_exclusion (excl : List String) :
    available_ingredients (some excl) =
      feed_ingredients.filter (fun kv => !(excl.contains kv.1)) ∧
    (available_ingredients (some ["Salt", "Trace Mineral Mix"])).map Prod.fst =
      ["Alfalfa Hay", "Corn Silage", "Soybean Meal (48%)", "Ground Corn",
       "Dicalcium Phosphate"] ∧
    (available_ingredients (some ["Salt", "Trace Mineral Mix"])).length = 5 ∧
    feed_ingredients.length = 7 ∧
    available_ingredients (some ["Seaweed"]) = feed_ingredients :=
  ⟨available_eq_filter excl, by decide, by decide, by decide, by decide⟩

/-- Prediction record with every target key present, used for concrete
assembly inputs. -/
def rec_demo : List (String × ℚ) := target_columns.map (fun t => (t, 10))

set_option maxRecDepth 2000 in
/-- Counterexample for C5: two exclusion lists that are equal as sets (a
permutation of each other) but differently ordered produce different output
text, because the appended unavailability note joins the names in the order
given. -/
theorem c5_counterexample :
    (["Salt", "Trace Mineral Mix"] : List String).Perm ["Trace Mineral Mix", "Salt"] ∧
    (["Salt", "Trace Mineral Mix"] : List String) ≠ ["Trace Mineral Mix", "Salt"] ∧
    generate_feed_recommendation_prompt rec_demo (some ["Salt", "Trace Mineral Mix"]) ≠
      generate_feed_recommendation_prompt rec_demo (some ["Trace Mineral Mix", "Salt"]) := by
  refine ⟨by decide, by decide, ?_⟩
  intro h
  have hav : available_ingredients (some ["Salt", "Trace Mineral Mix"]) =
      available_ingredients (some ["Trace Mineral Mix", "Salt"]) := by
    rw [available_eq_filter, available_eq_filter]
    apply List.filter_congr
    intro kv _
    rw [contains_eq_of_perm ["Salt", "Trace Mineral Mix"] ["Trace Mineral Mix", "Salt"]
      (by decide) kv.1]
  have hd := congrArg String.data h
  simp only [generate_feed_recommendation_prompt, String.data_append, hav] at hd
  have h1 := List.append_cancel_right hd
  have h2 := List.append_cancel_left h1
  exact absurd h2 (by decide)

/-- Claim C5 as amended: `generate_feed_recommendation` is a pure function of
the prediction record and the exclusion list as a sequence — identical
arguments give identical text, and the filtered ingredient table is invariant
under reordering of the exclusion list — but the appended unavailability note
lists the names in the given order, so exclusion lists that are equal only as
sets may change the note and hence the text. -/
theorem c5_amended (preds : List (String × ℚ)) (e1 e2 : List String)
    (h : e1.Perm e2) :
    ingredient_rows (available_ingredients (some e1)) =
      ingredient_rows (available_ingredients (some e2)) ∧
    (e1 = e2 → generate_feed_recommendation_prompt preds (some e1) =
      generate_feed_recommendation_prompt preds (some e2)) := by
  constructor
  · have hav : available_ingredients (some e1) = available_ingredients (some e2) := by
      rw [available_eq_filter, available_eq_filter]
      apply List.filter_congr
      intro kv _
      rw [contains_eq_of_perm e1 e2 h kv.1]
    rw [hav]
  · intro he
    rw [he]

/-- Witness for C5's amended claim at concrete permuted exclusion lists. -/
theorem c5_witness :
    ingredient_rows (available_ingredients (some ["Salt", "Trace Mineral Mix"])) =
      ingredient_rows (available_ingredients (some ["Trace Mineral Mix", "Salt"])) :=
  (c5_amended rec_demo ["Salt", "Trace Mineral Mix"] ["Trace Mineral Mix", "Salt"]
    (by decide)).1

/-- Constant scaler-fitting function instantiating the abstract
`StandardScaler.fit` in concrete states. -/
def const_stats : List ℚ → Scaler := fun _ => demoScaler

/-- Constant forest-fitting function instantiating the abstract
`RandomForestRegressor.fit` in concrete states. -/
def forest0 : List (List ℚ) → List ℚ → RFModel := fun _ _ => demoModel

/-- A dataset with all four feature columns but only the first four target
columns: the fifth target, "CP (% DM)", is missing. -/
def df4 : Dataset :=
  (feature_columns
    ++ ["DM Intake (lbs/day)", "TDN (% DM)", "NEm (Mcal/lb)", "NEg (Mcal/lb)"]).map
    (fun c => (c, [1, 2]))

theorem lookup_columns_error (df : Dataset) (cols : List String)
    (h : ∃ c ∈ cols, df.lookup c = none) :
    ∃ e, lookup_columns df cols = .error e := by
  induction cols with
  | nil =>
    obtain ⟨c, hc, _⟩ := h
    exact absurd hc (List.not_mem_nil c)
  | cons c cs ih =>
    obtain ⟨c2, hc2, hn⟩ := h
    cases hdc : df.lookup c with
    | none => exact ⟨.keyError c, by simp [lookup_columns, hdc]⟩
    | some col =>
      rcases List.mem_cons.mp hc2 with rfl | hmem
      · rw [hn] at hdc
        cases hdc
      · obtain ⟨e, he⟩ := ih ⟨c2, hmem, hn⟩
        exact ⟨e, by simp [lookup_columns, hdc, he]⟩

theorem train_targets_error (fitStats : List ℚ → Scaler)
    (fitForest : List (List ℚ) → List ℚ → RFModel) (df : Dataset)
    (Xs : List (List ℚ)) (p : Predictor) (ts : List String)
    (h : ∃ t ∈ ts, df.lookup t = none) :
    (train_targets fitStats fitForest df Xs p ts).2.isSome = true := by
  induction ts generalizing p with
  | nil =>
    obtain ⟨t, ht, _⟩ := h
    exact absurd ht (List.not_mem_nil t)
  | cons t ts ih =>
    obtain ⟨t2, ht2, hn⟩ := h
    simp only [train_targets]
    cases hdt : df.lookup t with
    | none => simp
    | some y =>
      rcases List.mem_cons.mp ht2 with rfl | hmem
      · rw [hn] at hdt
        cases hdt
      · dsimp only
        cases hg : get_model_check p.model_type with
        | error e => simp [hg]
        | ok u => simp only [hg]; exact ih _ ⟨t2, hmem, hn⟩

/-- Counterexample for C7: on a dataset missing the fifth target column, the
`train` call fails with the key error for that column, yet the predictor
retains the newly trained models and scalers of the first four targets, and
the freshly fitted feature scaler. -/
theorem c7_counterexample :
    ((feature_columns ++ target_columns).all (fun c => (df4.lookup c).isSome) = false) ∧
    (train const_stats forest0 new_predictor df4).2 = some (.keyError "CP (% DM)") ∧
    (train const_stats forest0 new_predictor df4).1.models.map Prod.fst =
      ["DM Intake (lbs/day)", "TDN (% DM)", "NEm (Mcal/lb)", "NEg (Mcal/lb)"] ∧
    (train const_stats forest0 new_predictor df4).1.scalers.targets.map Prod.fst =
      ["DM Intake (lbs/day)", "TDN (% DM)", "NEm (Mcal/lb)", "NEg (Mcal/lb)"] ∧
    (train const_stats forest0 new_predictor df4).1.scalers.features.isSome = true := by
  refine ⟨by decide, by decide, by decide, by decide, by decide⟩

/-- Claim C7 as amended: `train` on a dataset missing any required feature or
target column fails for that call, but the failure is not atomic — models and
scalers fitted before the missing column is reached (and the replaced feature
scaler) remain stored on the predictor. -/
theorem c7_amended :
    (∀ (fitStats : List ℚ → Scaler) (fitForest : List (List ℚ) → List ℚ → RFModel)
      (p : Predictor) (df : Dataset),
      (∃ c ∈ feature_columns ++ target_columns, df.lookup c = none) →
      (train fitStats fitForest p df).2.isSome = true) ∧
    (train const_stats forest0 new_predictor df4).1.models.map Prod.fst ≠ [] := by
  constructor
  · rintro fitStats fitForest p df ⟨c, hc, hn⟩
    rcases List.mem_append.mp hc with hf | ht
    · obtain ⟨e, he⟩ := lookup_columns_error df feature_columns ⟨c, hf, hn⟩
      simp [train, he]
    · unfold train
      cases hlc : lookup_columns df feature_columns with
      | error e => simp
      | ok Xcols =>
        dsimp only
        exact train_targets_error _ _ df _ _ target_columns ⟨c, ht, hn⟩
  · decide

/-- Witness for C7's amended claim at a concrete dataset with a missing
target column. -/
theorem c7_witness :
    (∃ c ∈ feature_columns ++ target_columns, df4.lookup c = none) ∧
    (train const_stats forest0 new_predictor df4).2.isSome = true :=
  ⟨by decide, c7_amended.1 const_stats forest0 new_predictor df4 (by decide)⟩

/-- Claim C8: loading a saved predictor state into any predictor yields one
whose `predict` output is identical (exactly, hence within any floating-point
tolerance) to the original predictor's output on the same input. -/
theorem c8_round_trip (p q : Predictor) (tv tw bw adg : ℚ) :
    (load_models (save_models p) q).map (fun p2 => predict p2 tv tw bw adg) =
      .ok (predict p tv tw bw adg) := rfl

theorem strHasSub_self (p : String) : strHasSub p p = true := listHasSub_refl p.data

theorem prompt_has_dmi_line (preds : List (String × ℚ)) (excl : Option (List String)) :
    strHasSub (generate_feed_recommendation_prompt preds excl) (dmi_line preds) = true := by
  unfold generate_feed_recommendation_prompt
  iterate 4 apply strHasSub_append_r
  unfold req_block
  iterate 15 apply strHasSub_append_r
  exact strHasSub_append_pat _ _

theorem prompt_has_tdn_line (preds : List (String × ℚ)) (excl : Option (List String)) :
    strHasSub (generate_feed_recommendation_prompt preds excl) (tdn_line preds) = true := by
  unfold generate_feed_recommendation_prompt
  iterate 4 apply strHasSub_append_r
  unfold req_block
  iterate 13 apply strHasSub_append_r
  exact strHasSub_append_pat _ _

theorem prompt_has_nem_line (preds : List (String × ℚ)) (excl : Option (List String)) :
    strHasSub (generate_feed_recommendation_prompt preds excl) (nem_line preds) = true := by
  unfold generate_feed_recommendation_prompt
  iterate 4 apply strHasSub_append_r
  unfold req_block
  iterate 11 apply strHasSub_append_r
  exact strHasSub_append_pat _ _

theorem prompt_has_neg_line (preds : List (String × ℚ)) (excl : Option (List String)) :
    strHasSub (generate_feed_recommendation_prompt preds excl) (neg_line preds) = true := by
  unfold generate_feed_recommendation_prompt
  iterate 4 apply strHasSub_append_r
  unfold req_block
  iterate 9 apply strHasSub_append_r
  exact strHasSub_append_pat _ _

theorem prompt_has_cp_line (preds : List (String × ℚ)) (excl : Option (List String)) :
    strHasSub (generate_feed_recommendation_prompt preds excl) (cp_line preds) = true := by
  unfold generate_feed_recommendation_prompt
  iterate 4 apply strHasSub_append_r
  unfold req_block
  iterate 7 apply strHasSub_append_r
  exact strHasSub_append_pat _ _

theorem prompt_has_ca_line (preds : List (String × ℚ)) (excl : Option (List String)) :
    strHasSub (generate_feed_recommendation_prompt preds excl) (ca_line preds) = true := by
  unfold generate_feed_recommendation_prompt
  iterate 4 apply strHasSub_append_r
  unfold req_block
  iterate 5 apply strHasSub_append_r
  exact strHasSub_append_pat _ _

theorem prompt_has_phos_line (preds : List (String × ℚ)) (excl : Option (List String)) :
    strHasSub (generate_feed_recommendation_prompt preds excl) (phos_line preds) = true := by
  unfold generate_feed_recommendation_prompt
  iterate 4 apply strHasSub_append_r
  unfold req_block
  iterate 3 apply strHasSub_append_r
  exact strHasSub_append_pat _ _

/-- Prediction record with "CP (% DM)" set to 12.34 and all other targets 0,
used to exhibit the CP-percentage formatting. -/
def rec_cp : List (String × ℚ) :=
  target_columns.map (fun t => (t, if t = "CP (% DM)" then mkRat 1234 100 else 0))

/-- Counterexample for C9: with the CP percentage equal to 12.34, the
assembled summary renders it as "12.3" (one decimal place) inside the CP
line; the two-decimal rendering "12.34" claimed for protein/percentage fields
does not appear in that line. -/
theorem c9_counterexample :
    strHasSub (generate_feed_recommendation_prompt rec_cp none) (cp_line rec_cp) = true ∧
    cp_line rec_cp = "- Crude Protein (CP): 12.3% of DM (0.00 lbs)" ∧
    fmtFixed 2 (pget rec_cp "CP (% DM)") = "12.34" ∧
    strHasSub (cp_line rec_cp) "12.34" = false :=
  ⟨prompt_has_cp_line rec_cp none, by decide, by decide, by decide⟩

/-- Claim C9 as amended: the assembled summary contains each nutrient line
with the source's fixed formats — one decimal place for the DMI, the absolute
TDN/NEm/NEg values, and also for the TDN and CP percentages (not two, as
claimed); two decimal places for the NEm/NEg per-lb rates, the CP pounds and
the Ca/P percentages; and integer rendering for the Ca/P gram values. -/
theorem c9_amended (preds : List (String × ℚ)) :
    strHasSub (generate_feed_recommendation_prompt preds none) (dmi_line preds) = true ∧
    strHasSub (generate_feed_recommendation_prompt preds none) (tdn_line preds) = true ∧
    strHasSub (generate_feed_recommendation_prompt preds none) (nem_line preds) = true ∧
    strHasSub (generate_feed_recommendation_prompt preds none) (neg_line preds) = true ∧
    strHasSub (generate_feed_recommendation_prompt preds none) (cp_line preds) = true ∧
    strHasSub (generate_feed_recommendation_prompt preds none) (ca_line preds) = true ∧
    strHasSub (generate_feed_recommendation_prompt preds none) (phos_line preds) = true ∧
    dmi_line preds = "- Dry Matter Intake (DMI): "
      ++ fmtFixed 1 (pget preds "DM Intake (lbs/day)") ++ " lbs" ∧
    tdn_line preds = "- Total Digestible Nutrients (TDN): "
      ++ fmtFixed 1 (pget preds "TDN (% DM)") ++ "% of DM ("
      ++ fmtFixed 1 (pget preds "TDN (lbs)") ++ " lbs)" ∧
    nem_line preds = "- Net Energy for Maintenance (NEm): "
      ++ fmtFixed 2 (pget preds "NEm (Mcal/lb)") ++ " Mcal/lb ("
      ++ fmtFixed 1 (pget preds "NEm (Mcal)") ++ " Mcal)" ∧
    neg_line preds = "- Net Energy for Gain (NEg): "
      ++ fmtFixed 2 (pget preds "NEg (Mcal/lb)") ++ " Mcal/lb ("
      ++ fmtFixed 1 (pget preds "NEg (Mcal)") ++ " Mcal)" ∧
    cp_line preds = "- Crude Protein (CP): "
      ++ fmtFixed 1 (pget preds "CP (% DM)") ++ "% of DM ("
      ++ fmtFixed 2 (pget preds "CP (lbs)") ++ " lbs)" ∧
    ca_line preds = "- Calcium (Ca): "
      ++ fmtFixed 2 (pget preds "Ca (%DM)") ++ "% of DM ("
      ++ fmtFixed 0 (pget preds "Ca (grams)") ++ " g)" ∧
    phos_line preds = "- Phosphorus (P): "
      ++ fmtFixed 2 (pget preds "P (% DM)") ++ "% of DM ("
      ++ fmtFixed 0 (pget preds "P (grams)") ++ " g)" :=
  ⟨prompt_has_dmi_line preds none, prompt_has_tdn_line preds none,
   prompt_has_nem_line preds none, prompt_has_neg_line preds none,
   prompt_has_cp_line preds none, prompt_has_ca_line preds none,
   prompt_has_phos_line preds none, rfl, rfl, rfl, rfl, rfl, rfl, rfl⟩

/-- Claim C10: assembling with an empty exclusion list is identical to
assembling with the argument omitted (`None`): the full 7-ingredient table is
used and no unavailability note is appended. -/
theorem c10_empty_exclusions (preds : List (String × ℚ)) :
    generate_feed_recommendation_prompt preds (some []) =
      generate_feed_recommendation_prompt preds none ∧
    available_ingredients (some []) = feed_ingredients ∧
    available_ingredients none = feed_ingredients ∧
    feed_ingredients.length = 7 ∧
    note_block (some []) = "" ∧
    note_block none = "" :=
  ⟨rfl, rfl, rfl, rfl, rfl, rfl⟩

end NM
